import Mathlib

/-!
# Verification of the `mlflow_dock` webhook dispatcher

Shallow embedding of the repository's Python sources
(`src/mlflow_dock/security.py`, `config.py`, `docker_service.py`, `main.py`)
together with proofs about the embedded definitions.

Conventions:
* Python exceptions are modelled with `Except`: a Python function that can
  raise returns `Except PyErr α` (resp. a typed error for the docker layer).
* Machine-level 32-bit words are `Nat` reduced modulo `2 ^ 32`.
* Wall-clock time (`time.time()`) enters as an explicit `now : Int` parameter.
-/

set_option maxRecDepth 4000

deriving instance DecidableEq for Except

namespace MlflowDock

/-- Python runtime errors that the embedded code can raise.
`attributeError a` models `AttributeError` from reading a missing attribute
`a`; `typeError` models the `TypeError` that `hmac.compare_digest` raises on
non-ASCII `str` arguments. -/
inductive PyErr where
  | attributeError (attr : String)
  | typeError
deriving DecidableEq, Repr

/-! ## `security.py`: timestamp freshness -/

/-- Characters stripped by Python's `int(str)` conversion (ASCII whitespace). -/
def isPySpace (c : Char) : Bool :=
  c = ' ' || c = '\t' || c = '\n' || c = '\x0d' || c = '\x0b' || c = '\x0c'

/-- Decimal digit value of a character, if it is one. -/
def digitVal (c : Char) : Option Nat :=
  if '0' ≤ c ∧ c ≤ '9' then some (c.toNat - 48) else none

/-- Continuation of Python's integer literal scan after at least one digit has
been read into `acc`: further digits, with single underscores allowed between
digits (`int("1_0") = 10`, `int("1__0")` and `int("1_")` raise). -/
def parseDigitsRest (acc : Nat) : List Char → Option Nat
  | [] => some acc
  | '_' :: c :: rest =>
    match digitVal c with
    | some d => parseDigitsRest (acc * 10 + d) rest
    | none => none
  | '_' :: [] => none
  | c :: rest =>
    match digitVal c with
    | some d => parseDigitsRest (acc * 10 + d) rest
    | none => none

/-- Scan of the digit part of a Python integer literal: at least one digit,
then `parseDigitsRest`. -/
def parseDigitsStart : List Char → Option Nat
  | [] => none
  | c :: rest =>
    match digitVal c with
    | some d => parseDigitsRest d rest
    | none => none

/-- Model of Python's `int(s)` on a decimal string: strip surrounding
whitespace, optional single `+`/`-` sign, then digits (with underscore
separators). `none` models the `ValueError` that the source catches. -/
def pyParseInt (s : String) : Option Int :=
  let l := ((s.data.dropWhile isPySpace).reverse.dropWhile isPySpace).reverse
  match l with
  | '+' :: rest => (parseDigitsStart rest).map Int.ofNat
  | '-' :: rest => (parseDigitsStart rest).map (fun n => -(n : Int))
  | rest => (parseDigitsStart rest).map Int.ofNat

/-- Embedding of `security.verify_timestamp_freshness(timestamp_str, max_age)`.
`now` stands for `int(time.time())`.  Parse failure (`ValueError`/`TypeError`)
is caught and yields `false`; otherwise the age `now - ts` must lie in
`[0, max_age]`. -/
def verify_timestamp_freshness (now : Int) (timestamp_str : String)
    (max_age : Int) : Bool :=
  match pyParseInt timestamp_str with
  | none => false
  | some ts => decide (0 ≤ now - ts ∧ now - ts ≤ max_age)

/-! ## `config.py`: the `Settings` frozen dataclass -/

/-- The `Settings` dataclass of `config.py`: exactly these six fields. -/
structure Settings where
  webhook_secret : String
  docker_registry : String
  docker_username : String
  docker_password : String
  max_timestamp_age : Int
  port : Int
deriving DecidableEq, Repr

/-- A Python attribute value (the `Settings` fields are strings or ints). -/
inductive PyValue where
  | str (s : String)
  | int (i : Int)
deriving DecidableEq, Repr

/-- Projection used at call sites where the attribute is known to be a
string. -/
def PyValue.asStr : PyValue → String
  | .str s => s
  | .int _ => ""

/-- Projection used at call sites where the attribute is known to be an
int. -/
def PyValue.asInt : PyValue → Int
  | .int i => i
  | .str _ => 0

/-- The attribute table of a `Settings` instance: the frozen dataclass has
exactly the six declared fields and nothing else. -/
def settingsAttr (s : Settings) : String → Option PyValue
  | "webhook_secret" => some (.str s.webhook_secret)
  | "docker_registry" => some (.str s.docker_registry)
  | "docker_username" => some (.str s.docker_username)
  | "docker_password" => some (.str s.docker_password)
  | "max_timestamp_age" => some (.int s.max_timestamp_age)
  | "port" => some (.int s.port)
  | _ => none

/-- Python attribute access `settings.<name>`: an `AttributeError` is raised
for any name that is not a field of the dataclass. -/
def settingsGetattr (s : Settings) (name : String) : Except PyErr PyValue :=
  match settingsAttr s name with
  | some v => .ok v
  | none => .error (.attributeError name)

/-! ## `security.py`: HMAC-SHA256 signature verification

The hash is embedded concretely (FIPS 180-4 SHA-256 over byte lists, 32-bit
words as `Nat` modulo `2 ^ 32`), exactly the function `hashlib.sha256`
computes, so that signatures evaluate on concrete inputs. -/

/-- The word modulus `2 ^ 32`. -/
def M32 : Nat := 4294967296

/-- Truncation to a 32-bit word. -/
def w32 (n : Nat) : Nat := n % M32

/-- Right rotation of a 32-bit word by `n` places. -/
def rotr (n x : Nat) : Nat := w32 (x / 2 ^ n + x % 2 ^ n * 2 ^ (32 - n))

/-- Logical right shift of a 32-bit word by `n` places. -/
def shr (n x : Nat) : Nat := x / 2 ^ n

/-- Bitwise complement on 32 bits. -/
def wnot (x : Nat) : Nat := Nat.xor x 4294967295

/-- SHA-256 `Ch(x,y,z) = (x ∧ y) ⊕ (¬x ∧ z)`. -/
def shaCh (x y z : Nat) : Nat := Nat.xor (Nat.land x y) (Nat.land (wnot x) z)

/-- SHA-256 `Maj(x,y,z)`. -/
def shaMaj (x y z : Nat) : Nat :=
  Nat.xor (Nat.xor (Nat.land x y) (Nat.land x z)) (Nat.land y z)

/-- SHA-256 `Σ₀`. -/
def bigSigma0 (x : Nat) : Nat := Nat.xor (Nat.xor (rotr 2 x) (rotr 13 x)) (rotr 22 x)

/-- SHA-256 `Σ₁`. -/
def bigSigma1 (x : Nat) : Nat := Nat.xor (Nat.xor (rotr 6 x) (rotr 11 x)) (rotr 25 x)

/-- SHA-256 `σ₀`. -/
def smallSigma0 (x : Nat) : Nat := Nat.xor (Nat.xor (rotr 7 x) (rotr 18 x)) (shr 3 x)

/-- SHA-256 `σ₁`. -/
def smallSigma1 (x : Nat) : Nat := Nat.xor (Nat.xor (rotr 17 x) (rotr 19 x)) (shr 10 x)

/-- The 64 SHA-256 round constants. -/
def shaK : List Nat :=
  [1116352408, 1899447441, 3049323471, 3921009573, 961987163,
   1508970993, 2453635748, 2870763221, 3624381080, 310598401,
   607225278, 1426881987, 1925078388, 2162078206, 2614888103,
   3248222580, 3835390401, 4022224774, 264347078, 604807628,
   770255983, 1249150122, 1555081692, 1996064986, 2554220882,
   2821834349, 2952996808, 3210313671, 3336571891, 3584528711,
   113926993, 338241895, 666307205, 773529912, 1294757372,
   1396182291, 1695183700, 1986661051, 2177026350, 2456956037,
   2730485921, 2820302411, 3259730800, 3345764771, 3516065817,
   3600352804, 4094571909, 275423344, 430227734, 506948616,
   659060556, 883997877, 958139571, 1322822218, 1537002063,
   1747873779, 1955562222, 2024104815, 2227730452, 2361852424,
   2428436474, 2756734187, 3204031479, 3329325298]

/-- The SHA-256 initial hash value. -/
def shaH0 : List Nat :=
  [1779033703, 3144134277, 1013904242, 2773480762, 1359893119,
   2600822924, 528734635, 1541459225]

/-- Big-endian packing of bytes into 32-bit words (4 bytes per word). -/
def bytesToWords : List Nat → List Nat
  | a :: b :: c :: d :: rest => (((a * 256 + b) * 256 + c) * 256 + d) :: bytesToWords rest
  | _ => []

/-- Big-endian unpacking of a 32-bit word into 4 bytes. -/
def wordToBytes (w : Nat) : List Nat :=
  [w / 16777216 % 256, w / 65536 % 256, w / 256 % 256, w % 256]

/-- Message-schedule extension: append `fuel` further words
`W_t = σ₁(W_{t-2}) + W_{t-7} + σ₀(W_{t-15}) + W_{t-16}`. -/
def extendSchedule (ws : List Nat) : Nat → List Nat
  | 0 => ws
  | fuel + 1 =>
    let n := ws.length
    let wNew := w32 (smallSigma1 (ws.getD (n - 2) 0) + ws.getD (n - 7) 0 +
      smallSigma0 (ws.getD (n - 15) 0) + ws.getD (n - 16) 0)
    extendSchedule (ws ++ [wNew]) fuel

/-- The eight working variables of the SHA-256 compression loop. -/
structure ShaState where
  a : Nat
  b : Nat
  c : Nat
  d : Nat
  e : Nat
  f : Nat
  g : Nat
  h : Nat
deriving DecidableEq, Repr

/-- One SHA-256 round with constant `ki` and schedule word `wi`. -/
def shaRound (st : ShaState) (kw : Nat × Nat) : ShaState :=
  let t1 := w32 (st.h + bigSigma1 st.e + shaCh st.e st.f st.g + kw.1 + kw.2)
  let t2 := w32 (bigSigma0 st.a + shaMaj st.a st.b st.c)
  ⟨w32 (t1 + t2), st.a, st.b, st.c, w32 (st.d + t1), st.e, st.f, st.g⟩

/-- Compression of one 64-byte block into the running hash (8 words). -/
def sha256Compress (h : List Nat) (block : List Nat) : List Nat :=
  let w := extendSchedule (bytesToWords block) 48
  let st0 : ShaState :=
    ⟨h.getD 0 0, h.getD 1 0, h.getD 2 0, h.getD 3 0,
     h.getD 4 0, h.getD 5 0, h.getD 6 0, h.getD 7 0⟩
  let st := (shaK.zip w).foldl shaRound st0
  [w32 (h.getD 0 0 + st.a), w32 (h.getD 1 0 + st.b), w32 (h.getD 2 0 + st.c),
   w32 (h.getD 3 0 + st.d), w32 (h.getD 4 0 + st.e), w32 (h.getD 5 0 + st.f),
   w32 (h.getD 6 0 + st.g), w32 (h.getD 7 0 + st.h)]

/-- SHA-256 padding: append `0x80`, zeros to 56 mod 64, then the bit length
as 8 big-endian bytes. -/
def sha256Pad (msg : List Nat) : List Nat :=
  let len := msg.length
  let zeros := (64 - (len + 9) % 64) % 64
  let bitLen := len * 8
  msg ++ [128] ++ List.replicate zeros 0 ++
    [bitLen / 2 ^ 56 % 256, bitLen / 2 ^ 48 % 256, bitLen / 2 ^ 40 % 256,
     bitLen / 2 ^ 32 % 256, bitLen / 2 ^ 24 % 256, bitLen / 2 ^ 16 % 256,
     bitLen / 2 ^ 8 % 256, bitLen % 256]

/-- Split a byte list into 64-byte blocks (structural recursion on a fuel
bound so that the kernel can evaluate it; the fuel `l.length` always
suffices since every step consumes 64 bytes). -/
def chunk64Go : Nat → List Nat → List (List Nat)
  | _, [] => []
  | 0, l => [l]
  | fuel + 1, l => l.take 64 :: chunk64Go fuel (l.drop 64)

/-- Split a byte list into 64-byte blocks. -/
def chunk64 (l : List Nat) : List (List Nat) := chunk64Go l.length l

/-- SHA-256 of a byte list, as a 32-byte list (the digest
`hashlib.sha256(msg).digest()`). -/
def sha256 (msg : List Nat) : List Nat :=
  let blocks := chunk64 (sha256Pad msg)
  let finalH := blocks.foldl sha256Compress shaH0
  finalH.flatMap wordToBytes

/-- HMAC-SHA256 (RFC 2104) with 64-byte block size, as computed by
`hmac.new(key, msg, hashlib.sha256).digest()`. -/
def hmacSha256 (key msg : List Nat) : List Nat :=
  let k0 := if key.length > 64 then sha256 key else key
  let kpad := k0 ++ List.replicate (64 - k0.length) 0
  let ipad := kpad.map (fun b => Nat.xor b 54)
  let opad := kpad.map (fun b => Nat.xor b 92)
  sha256 (opad ++ sha256 (ipad ++ msg))

/-- UTF-8 encoding of one code point (Python `str.encode("utf-8")`,
per character). -/
def utf8EncodeCp (n : Nat) : List Nat :=
  if n < 128 then [n]
  else if n < 2048 then [192 + n / 64, 128 + n % 64]
  else if n < 65536 then [224 + n / 4096, 128 + n / 64 % 64, 128 + n % 64]
  else [240 + n / 262144, 128 + n / 4096 % 64, 128 + n / 64 % 64, 128 + n % 64]

/-- Embedding of `s.encode("utf-8")` as a byte list. -/
def strBytes (s : String) : List Nat := s.data.flatMap (fun c => utf8EncodeCp c.toNat)

/-- The standard base64 alphabet: index `0..63` to character
(`A-Z`, `a-z`, `0-9`, `+`, `/`); out-of-range indices never arise. -/
def b64Char (n : Nat) : Char :=
  "ABCDEFGHIJKLMNOPQRSTUVWXYZabcdefghijklmnopqrstuvwxyz0123456789+/".data.getD n 'A'

/-- Standard base64 encoding with `=` padding, 3 bytes to 4 characters
(`base64.b64encode`). -/
def b64EncodeChars : List Nat → List Char
  | [] => []
  | [a] => [b64Char (a / 4), b64Char (a % 4 * 16), '=', '=']
  | [a, b] => [b64Char (a / 4), b64Char (a % 4 * 16 + b / 16), b64Char (b % 16 * 4), '=']
  | a :: b :: c :: rest =>
    b64Char (a / 4) :: b64Char (a % 4 * 16 + b / 16) ::
      b64Char (b % 16 * 4 + c / 64) :: b64Char (c % 64) :: b64EncodeChars rest

/-- Embedding of `base64.b64encode(bytes).decode("utf-8")`. -/
def b64Encode (l : List Nat) : String := String.mk (b64EncodeChars l)

/-- Membership in the base64 output alphabet (including the `=` pad),
tested on the code point. -/
def isB64Char (c : Char) : Bool :=
  let n := c.toNat
  (65 ≤ n && n ≤ 90) || (97 ≤ n && n ≤ 122) || (48 ≤ n && n ≤ 57) ||
    n = 43 || n = 47 || n = 61

/-- A string drawn entirely from the base64 output alphabet.  A header whose
post-prefix part falls outside this is in particular not valid base64. -/
def inB64Alphabet (s : String) : Bool := s.data.all isB64Char

/-- Membership in the base64 data alphabet proper (`A-Z`, `a-z`, `0-9`, `+`,
`/`), excluding the `=` pad, tested on the code point. -/
def isB64DataChar (c : Char) : Bool :=
  let n := c.toNat
  (65 ≤ n && n ≤ 90) || (97 ≤ n && n ≤ 122) || (48 ≤ n && n ≤ 57) ||
    n = 43 || n = 47

/-- Structural validity of base64 text, group by group: every group of four
carries data characters, except that the final group may end in `=` or `==`;
text whose length is not a multiple of four is invalid. -/
def isValidBase64Groups : List Char → Bool
  | [] => true
  | [a, b, c, d] =>
    isB64DataChar a && isB64DataChar b &&
      ((isB64DataChar c && (isB64DataChar d || d = '=')) ||
        (c = '=' && d = '='))
  | a :: b :: c :: d :: rest =>
    isB64DataChar a && isB64DataChar b && isB64DataChar c && isB64DataChar d &&
      isValidBase64Groups rest
  | _ => false

/-- Valid base64 text: well-formed groups of four over the alphabet, with
`=` padding only at the very end. -/
def isValidBase64 (s : String) : Bool := isValidBase64Groups s.data

/-- ASCII-only check on a Python `str` (what `hmac.compare_digest` requires
of `str` arguments). -/
def isAsciiStr (s : String) : Bool := s.data.all (fun c => decide (c.toNat < 128))

/-- Embedding of `hmac.compare_digest(a, b)` on `str` arguments: raises `TypeError` when
either side contains a non-ASCII character, otherwise constant-time equality
(value-wise, plain equality). -/
def compare_digest (a b : String) : Except PyErr Bool :=
  if isAsciiStr a && isAsciiStr b then .ok (decide (a = b)) else .error .typeError

/-- Embedding of `signature.startswith("v1,")`. -/
def startsWithV1 (s : String) : Bool :=
  match s.data with
  | 'v' :: '1' :: ',' :: _ => true
  | _ => false

/-- The signed content `f"{delivery_id}.{timestamp}.{payload}"`. -/
def signed_content (delivery_id timestamp payload : String) : String :=
  delivery_id ++ "." ++ timestamp ++ "." ++ payload

/-- Embedding of `base64.b64encode(hmac.new(secret.encode(), signed_content.encode(),
hashlib.sha256).digest()).decode()`: the expected signature body. -/
def expected_signature_b64 (secret delivery_id timestamp payload : String) : String :=
  b64Encode (hmacSha256 (strBytes secret)
    (strBytes (signed_content delivery_id timestamp payload)))

/-- Embedding of `security.verify_mlflow_signature(payload, signature, secret, delivery_id,
timestamp)`: reject unless the header starts with `"v1,"`, strip that prefix
(`removeprefix`), recompute the expected base64 HMAC and compare with
`hmac.compare_digest`. -/
def verify_mlflow_signature (payload signature secret delivery_id timestamp : String) :
    Except PyErr Bool :=
  if startsWithV1 signature then
    let signature_b64 := String.mk (signature.data.drop 3)
    compare_digest signature_b64 (expected_signature_b64 secret delivery_id timestamp payload)
  else
    .ok false

/-- The signing helper of the repository's test suite
(`tests/conftest.py` / `tests/test_security.py`, `generate_signature`):
`"v1," + base64(HMAC-SHA256(secret, delivery_id + "." + timestamp + "." +
payload))`. -/
def generate_signature (payload secret delivery_id timestamp : String) : String :=
  "v1," ++ expected_signature_b64 secret delivery_id timestamp payload

/-! ## `docker_service.py`

The docker client and the mlflow packaging call are external collaborators;
their behaviour enters as explicit parameters (`PushBehavior` per attempt for
`client.images.push`, an `Except` outcome for `mlflow.models.build_docker`).
The `os.dup2` stdout/stderr redirection and the log-file writes are process
I/O outside the embedding; they do not alter control flow on the paths the
claims are about (exceptions propagate through the `try/finally` unchanged).
-/

/-- Errors of the docker layer: `docker.errors.APIError` (transport),
the module's own `DockerPushError` and `DockerBuildError`, and any other
exception class. -/
inductive DockerErr where
  | apiError (msg : String)
  | dockerPushError (msg : String)
  | dockerBuildError (msg : String)
  | otherError (msg : String)
deriving DecidableEq, Repr

/-- One decoded line of the push stream: may carry a `status` and/or an
`error` key. -/
structure PushEvent where
  status : Option String
  error : Option String
deriving DecidableEq, Repr

/-- Behaviour of one `client.images.push(...)` call: raise an
`APIError`, raise some other exception, or yield a stream of events. -/
inductive PushBehavior where
  | raiseApi (msg : String)
  | raiseOther (msg : String)
  | stream (events : List PushEvent)
deriving DecidableEq, Repr

/-- The `for line in client.images.push(...)` loop body: a `status` key is
only logged; an `error` key raises `DockerPushError(error_msg)` immediately,
aborting the stream. -/
def process_push_stream : List PushEvent → Except DockerErr Unit
  | [] => .ok ()
  | ev :: rest =>
    match ev.error with
    | some msg => .error (.dockerPushError msg)
    | none => process_push_stream rest

/-- A call made on the docker client during a push. The current source only
ever calls `client.images.push`; a `login` constructor exists so the absence
of any registry login can be stated. -/
inductive ClientCall where
  | login (username password registry : String)
  | pushCall (image : String) (auth_config : Option (String × String))
deriving DecidableEq, Repr

/-- Result of one execution of the body of `_push_docker_image` (the function
under the `@retry` decorator), for a given behaviour of the docker client. -/
def push_attempt_result (behavior : PushBehavior) : Except DockerErr Unit :=
  match behavior with
  | .raiseApi msg => .error (.apiError msg)
  | .raiseOther msg => .error (.otherError msg)
  | .stream evs => process_push_stream evs

/-- Client calls made by one execution of the body of `_push_docker_image`:
exactly one `client.images.push(image_name, stream=True, decode=True,
[auth_config=...])`; no login is ever issued. -/
def push_attempt_calls (image : String) (auth_config : Option (String × String)) :
    List ClientCall :=
  [.pushCall image auth_config]

/-- The retry predicate `retry_if_exception_type((docker.errors.APIError,
DockerPushError))`. -/
def is_retryable : DockerErr → Bool
  | .apiError _ => true
  | .dockerPushError _ => true
  | _ => false

/-- Outcome of the retrying push: final result, number of attempts actually
made, and the docker-client calls issued along the way. -/
structure RetryResult where
  result : Except DockerErr Unit
  attempts : Nat
  calls : List ClientCall
deriving DecidableEq, Repr

/-- The `tenacity` driver for `@retry(retry=retry_if_exception_type((APIError,
DockerPushError)), stop=stop_after_attempt(3), reraise=True)`: `k` is the
current attempt number, `fuel` the number of retries still allowed by the stop
condition.  A success returns; a non-retryable exception propagates at once;
a retryable exception propagates unmodified (`reraise=True`) once the stop
condition is reached, else the body runs again.  The backoff sleeps
(`wait_exponential`) are real time, outside the embedding. -/
def tenacity_retry_go (image : String) (auth_config : Option (String × String))
    (behavior : Nat → PushBehavior) : Nat → Nat → List ClientCall → RetryResult
  | k, 0, acc =>
    (match push_attempt_result (behavior k) with
     | .ok () => ⟨.ok (), k, acc ++ push_attempt_calls image auth_config⟩
     | .error e => ⟨.error e, k, acc ++ push_attempt_calls image auth_config⟩)
  | k, fuel + 1, acc =>
    (match push_attempt_result (behavior k) with
     | .ok () => ⟨.ok (), k, acc ++ push_attempt_calls image auth_config⟩
     | .error e =>
       if is_retryable e then
         tenacity_retry_go image auth_config behavior (k + 1) fuel
           (acc ++ push_attempt_calls image auth_config)
       else ⟨.error e, k, acc ++ push_attempt_calls image auth_config⟩)

/-- Embedding of `_push_docker_image(image_name, auth_config)` under its retry decorator:
attempt numbering starts at 1, `stop_after_attempt(3)` allows at most two
further attempts after the first. -/
def push_docker_image (image : String) (auth_config : Option (String × String))
    (behavior : Nat → PushBehavior) : RetryResult :=
  tenacity_retry_go image auth_config behavior 1 2 []

/-- Embedding of `_build_docker_image(model_uri, image_name)`: delegate to
`mlflow.models.build_docker` (whose outcome is the parameter `outcome`) and
re-raise any exception as `DockerBuildError(f"Failed to build image
{image_name}: {e}")`. -/
def build_docker_image (model_uri image_name : String)
    (outcome : Except String Unit) : Except DockerErr Unit :=
  match outcome with
  | .ok () => .ok ()
  | .error e => .error (.dockerBuildError ("Failed to build image " ++ image_name ++ ": " ++ e))

/-- The `_get_build_log_path` filename sanitisation:
`model_name.replace("/", "_").replace(":", "_")` — `str.replace` with a
one-character pattern maps every occurrence. -/
def str_replace_char (l : List Char) (old new : Char) : List Char :=
  l.map (fun c => if c = old then new else c)

/-- Embedding of `s.replace("/", "_").replace(":", "_")` as applied to the model name and
version in `_get_build_log_path`. -/
def sanitize_component (s : String) : String :=
  String.mk (str_replace_char (str_replace_char s.data '/' '_') ':' '_')

/-- The filename part of `_get_build_log_path`:
`f"{safe_model_name}_{safe_version}_{timestamp}.log"`, where `timestamp` is
`datetime.now().strftime("%Y%m%d_%H%M%S")` (passed in here as a string). -/
def build_log_file_name (model_name version timestamp : String) : String :=
  sanitize_component model_name ++ "_" ++ sanitize_component version ++ "_" ++
    timestamp ++ ".log"

/-- Embedding of `build_and_push_docker(...)` (the orchestrator's blocking form), with the
collaborator behaviours as parameters.  Returns the overall outcome and
whether the push step was invoked at all.  The image name is
`f"{docker_registry}/{model_name}:{version}"` and `auth_config` always carries
the username/password pair; the fd-level log redirection with its guaranteed
restoration does not change which steps run. -/
def build_and_push_docker (model_uri model_name version docker_registry
    docker_username docker_registry_password : String)
    (buildOutcome : Except String Unit) (pushBehavior : Nat → PushBehavior) :
    Except DockerErr Unit × Bool :=
  let image_name := docker_registry ++ "/" ++ model_name ++ ":" ++ version
  let auth_config := some (docker_username, docker_registry_password)
  match build_docker_image model_uri image_name buildOutcome with
  | .error e => (.error e, false)
  | .ok () => ((push_docker_image image_name auth_config pushBehavior).result, true)

/-! ## `main.py`: the webhook dispatcher

`POST /webhook` declares three required headers and a typed body
`event : WebhookEvent = ModelVersionCreatedEvent | ModelVersionAliasCreatedEvent`;
FastAPI/pydantic reject a request whose headers are absent or whose body does
not validate against either union member (HTTP 422) before the handler runs.
The handler body is then translated statement by statement. -/

/-- The payload type `ModelVersionCreatedPayload` as consumed by the handler
(`data["name"]`, `data["source"]`, `data["version"]`). -/
structure ModelVersionCreatedPayload where
  name : String
  source : String
  version : String
deriving DecidableEq, Repr

/-- The payload type `ModelVersionAliasCreatedPayload` as consumed by the handler
(`data["name"]`, `data["alias"]`). -/
structure ModelVersionAliasCreatedPayload where
  name : String
  aliasValue : String
deriving DecidableEq, Repr

/-- The validated body type `WebhookEvent`: the union of the two event models,
each fixing its `entity`/`action` literal pair. -/
inductive WebhookEvent where
  | modelVersionCreated (data : ModelVersionCreatedPayload)
  | modelVersionAliasCreated (data : ModelVersionAliasCreatedPayload)
deriving DecidableEq, Repr

/-- The `data` object of an inbound JSON body before validation: the fields
the two payload types may require, each possibly absent. -/
structure RawData where
  name : Option String
  source : Option String
  version : Option String
  aliasValue : Option String
deriving DecidableEq, Repr

/-- An inbound JSON body before validation: `entity` and `action` tags plus
the raw `data` object. -/
structure RawEvent where
  entity : String
  action : String
  data : RawData
deriving DecidableEq, Repr

/-- Pydantic validation of the body against the `WebhookEvent` union:
`ModelVersionCreatedEvent` requires `entity = "model_version"`,
`action = "created"` and the created-payload fields;
`ModelVersionAliasCreatedEvent` requires `entity = "model_version_alias"`,
`action = "created"` and the alias-payload fields.  Anything else fails
validation (HTTP 422). -/
def validateEvent (r : RawEvent) : Except Unit WebhookEvent :=
  if r.entity = "model_version" ∧ r.action = "created" then
    match r.data.name, r.data.source, r.data.version with
    | some n, some s, some v => .ok (.modelVersionCreated ⟨n, s, v⟩)
    | _, _, _ => .error ()
  else if r.entity = "model_version_alias" ∧ r.action = "created" then
    match r.data.name, r.data.aliasValue with
    | some n, some a => .ok (.modelVersionAliasCreated ⟨n, a⟩)
    | _, _ => .error ()
  else
    .error ()

/-- A scheduled build task: the keyword arguments of the
`build_and_push_docker_async(...)` call wrapped in `asyncio.create_task`. -/
structure BuildJob where
  model_uri : String
  model_name : String
  version : String
  docker_registry : String
  docker_username : String
  docker_registry_password : String
deriving DecidableEq, Repr

/-- What the endpoint sends back: a 422 from framework validation, an
`HTTPException` the handler raises, an unhandled Python exception (surfacing
as HTTP 500), or the success path `202` with body `\x7b"status":
"submitted"\x7d` (the response dict is carried by its single field value). -/
inductive WebhookResponse where
  | validationError
  | httpError (status : Nat) (detail : String)
  | unhandled (e : PyErr)
  | accepted (status_field : String)
deriving DecidableEq, Repr

/-- Observable outcome of one request: the response, the build tasks that were
scheduled, and whether `verify_mlflow_signature` was ever invoked. -/
structure DispatchResult where
  response : WebhookResponse
  scheduled : List BuildJob
  signatureChecked : Bool
deriving DecidableEq, Repr

/-- The body of `handle_webhook` (after FastAPI has supplied the three header
strings and the validated `event`), translated statement by statement.  Every
`settings.<attr>` read goes through `settingsGetattr`, as in Python; an
`AttributeError` escapes the handler unhandled.  Keyword arguments of the
scheduled call are evaluated left to right, so `settings.docker_registry` and
`settings.docker_username` are read before `settings.docker_registry_password`. -/
def handle_webhook (settings : Settings) (now : Int) (payload : String)
    (event : WebhookEvent)
    (x_mlflow_signature x_mlflow_delivery_id x_mlflow_timestamp : String) :
    DispatchResult :=
  if x_mlflow_signature = "" then
    ⟨.httpError 400 "Missing signature header", [], false⟩
  else if x_mlflow_delivery_id = "" then
    ⟨.httpError 400 "Missing delivery ID header", [], false⟩
  else if x_mlflow_timestamp = "" then
    ⟨.httpError 400 "Missing timestamp header", [], false⟩
  else
    match settingsGetattr settings "max_timestamp_age" with
    | .error e => ⟨.unhandled e, [], false⟩
    | .ok maxAge =>
      if verify_timestamp_freshness now x_mlflow_timestamp maxAge.asInt = false then
        ⟨.httpError 400 "Timestamp is too old or invalid (possible replay attack)", [], false⟩
      else
        match settingsGetattr settings "mlflow_webhook_secret" with
        | .error e => ⟨.unhandled e, [], false⟩
        | .ok secret =>
          match verify_mlflow_signature payload x_mlflow_signature secret.asStr
              x_mlflow_delivery_id x_mlflow_timestamp with
          | .error e => ⟨.unhandled e, [], true⟩
          | .ok false => ⟨.httpError 401 "Invalid signature", [], true⟩
          | .ok true =>
            match event with
            | .modelVersionCreated data =>
              match settingsGetattr settings "docker_registry" with
              | .error e => ⟨.unhandled e, [], true⟩
              | .ok reg =>
                match settingsGetattr settings "docker_username" with
                | .error e => ⟨.unhandled e, [], true⟩
                | .ok user =>
                  match settingsGetattr settings "docker_registry_password" with
                  | .error e => ⟨.unhandled e, [], true⟩
                  | .ok pass =>
                    ⟨.accepted "submitted",
                      [⟨data.source, data.name, data.version,
                        reg.asStr, user.asStr, pass.asStr⟩], true⟩
            | .modelVersionAliasCreated data =>
              match settingsGetattr settings "docker_registry" with
              | .error e => ⟨.unhandled e, [], true⟩
              | .ok reg =>
                match settingsGetattr settings "docker_username" with
                | .error e => ⟨.unhandled e, [], true⟩
                | .ok user =>
                  match settingsGetattr settings "docker_registry_password" with
                  | .error e => ⟨.unhandled e, [], true⟩
                  | .ok pass =>
                    ⟨.accepted "submitted",
                      [⟨"models:/" ++ data.name ++ "@" ++ data.aliasValue,
                        data.name, data.aliasValue,
                        reg.asStr, user.asStr, pass.asStr⟩], true⟩

/-- The whole `POST /webhook` endpoint: FastAPI first rejects requests with a
missing required header or a body failing `WebhookEvent` validation (422),
then runs `handle_webhook` on the raw body text and the validated event. -/
def webhook_endpoint (settings : Settings) (now : Int) (payload : String)
    (raw : RawEvent)
    (x_mlflow_signature x_mlflow_delivery_id x_mlflow_timestamp : Option String) :
    DispatchResult :=
  match x_mlflow_signature, x_mlflow_delivery_id, x_mlflow_timestamp with
  | some sg, some di, some ts =>
    match validateEvent raw with
    | .error () => ⟨.validationError, [], false⟩
    | .ok event => handle_webhook settings now payload event sg di ts
  | _, _, _ => ⟨.validationError, [], false⟩

/-! ## Helper lemmas -/

/-! Model sanity checks on concrete inputs. -/

example : pyParseInt "1000" = some 1000 := by decide
example : pyParseInt "" = none := by decide
example : pyParseInt "not-a-number" = none := by decide
example : pyParseInt " -42 " = some (-42) := by decide
example : pyParseInt "1_0" = some 10 := by decide
example : pyParseInt "1_" = none := by decide
example : verify_timestamp_freshness 1000 "1000" 300 = true := by decide
example : verify_timestamp_freshness 1000 "699" 300 = false := by decide
example : verify_timestamp_freshness 1000 "1001" 300 = false := by decide
example :
    settingsGetattr ⟨"s", "r", "u", "p", 300, 8000⟩ "mlflow_webhook_secret" =
      .error (.attributeError "mlflow_webhook_secret") := by decide
example : b64Encode [77, 97, 110] = "TWFu" := by decide
example : b64Encode [77, 97] = "TWE=" := by decide
example : b64Encode [77] = "TQ==" := by decide
example : isValidBase64 "" = true := by decide
example : isValidBase64 "TWFu" = true := by decide
example : isValidBase64 "TWE=" = true := by decide
example : isValidBase64 "TQ==" = true := by decide
example : isValidBase64 "A" = false := by decide
example : isValidBase64 "====" = false := by decide
example : isValidBase64 "TQ==TQ==" = false := by decide
example : isValidBase64 "not-valid-base64!" = false := by decide

/-! FIPS 180-4 / RFC 4231-style vectors pinning the embedded hash down to the
real SHA-256 and HMAC-SHA256. -/

example :
    sha256 (strBytes "abc") =
      [186, 120, 22, 191, 143, 1, 207, 234, 65, 65, 64, 222,
       93, 174, 34, 35, 176, 3, 97, 163, 150, 23, 122, 156,
       180, 16, 255, 97, 242, 0, 21, 173] := by decide

example :
    sha256 [] =
      [227, 176, 196, 66, 152, 252, 28, 20, 154, 251, 244, 200,
       153, 111, 185, 36, 39, 174, 65, 228, 100, 155, 147, 76,
       164, 149, 153, 27, 120, 82, 184, 85] := by decide

example :
    hmacSha256 (strBytes "key")
        (strBytes "The quick brown fox jumps over the lazy dog") =
      [247, 188, 131, 244, 48, 83, 132, 36, 177, 50, 152, 230,
       170, 111, 177, 67, 239, 77, 89, 161, 73, 70, 23, 89,
       151, 71, 157, 188, 45, 26, 60, 216] := by decide

/-- Characters of a mapped replacement are the replacement character or
untouched characters different from the pattern. -/
theorem mem_str_replace_char {c a b : Char} {l : List Char}
    (h : c ∈ str_replace_char l a b) : c = b ∨ (c ∈ l ∧ c ≠ a) := by
  unfold str_replace_char at h
  rcases List.mem_map.mp h with ⟨x, hx, hfx⟩
  by_cases hxa : x = a
  · subst hxa; simp at hfx; exact Or.inl hfx.symm
  · simp [hxa] at hfx; subst hfx; exact Or.inr ⟨hx, hxa⟩

/-- Sanitisation removes every `/`. -/
theorem sanitize_no_slash (s : String) : '/' ∉ (sanitize_component s).data := by
  intro h
  rcases mem_str_replace_char h with h' | ⟨h', _⟩
  · exact absurd h' (by decide)
  · rcases mem_str_replace_char h' with h'' | ⟨_, h''⟩
    · exact absurd h'' (by decide)
    · exact h'' rfl

/-- Sanitisation removes every `:`. -/
theorem sanitize_no_colon (s : String) : ':' ∉ (sanitize_component s).data := by
  intro h
  rcases mem_str_replace_char h with h' | ⟨_, h'⟩
  · exact absurd h' (by decide)
  · exact h' rfl

/-- Every character the base64 alphabet lookup can produce lies in the base64
output alphabet. -/
theorem isB64Char_b64Char (n : Nat) : isB64Char (b64Char n) = true := by
  by_cases h : n < 64
  · exact (by decide : ∀ m : Fin 64, isB64Char (b64Char m.val) = true) ⟨n, h⟩
  · unfold b64Char
    rw [List.getD_eq_default]
    · decide
    · have : ("ABCDEFGHIJKLMNOPQRSTUVWXYZabcdefghijklmnopqrstuvwxyz0123456789+/" :
        String).data.length = 64 := by decide
      omega

/-- Every character of a base64 encoding lies in the base64 output
alphabet. -/
theorem b64EncodeChars_isB64 (l : List Nat) :
    ∀ c ∈ b64EncodeChars l, isB64Char c = true := by
  induction l using b64EncodeChars.induct with
  | case1 => intro c hc; simp [b64EncodeChars] at hc
  | case2 a =>
    intro c hc
    simp only [b64EncodeChars, List.mem_cons, List.not_mem_nil, or_false] at hc
    rcases hc with rfl | rfl | rfl | rfl <;> first | exact isB64Char_b64Char _ | decide
  | case3 a b =>
    intro c hc
    simp only [b64EncodeChars, List.mem_cons, List.not_mem_nil, or_false] at hc
    rcases hc with rfl | rfl | rfl | rfl <;> first | exact isB64Char_b64Char _ | decide
  | case4 a b cc rest ih =>
    intro c hc
    simp only [b64EncodeChars, List.mem_cons] at hc
    rcases hc with rfl | rfl | rfl | rfl | hc
    · exact isB64Char_b64Char _
    · exact isB64Char_b64Char _
    · exact isB64Char_b64Char _
    · exact isB64Char_b64Char _
    · exact ih c hc

/-- Characters of the base64 output alphabet are ASCII. -/
theorem isB64Char_ascii {c : Char} (h : isB64Char c = true) : c.toNat < 128 := by
  simp only [isB64Char, Bool.or_eq_true, Bool.and_eq_true, decide_eq_true_eq] at h
  omega

/-- Base64 encodings are ASCII strings. -/
theorem b64Encode_ascii (l : List Nat) : isAsciiStr (b64Encode l) = true := by
  unfold isAsciiStr b64Encode
  rw [List.all_eq_true]
  intro c hc
  exact decide_eq_true (isB64Char_ascii (b64EncodeChars_isB64 l c hc))

/-- Base64 encodings consist entirely of base64 alphabet characters. -/
theorem b64Encode_inAlphabet (l : List Nat) : inB64Alphabet (b64Encode l) = true := by
  unfold inB64Alphabet b64Encode
  rw [List.all_eq_true]
  exact b64EncodeChars_isB64 l

/-- The base64 alphabet lookup always yields a data character, never the
`=` pad. -/
theorem isB64DataChar_b64Char (n : Nat) : isB64DataChar (b64Char n) = true := by
  by_cases h : n < 64
  · exact (by decide : ∀ m : Fin 64, isB64DataChar (b64Char m.val) = true) ⟨n, h⟩
  · unfold b64Char
    rw [List.getD_eq_default]
    · decide
    · have : ("ABCDEFGHIJKLMNOPQRSTUVWXYZabcdefghijklmnopqrstuvwxyz0123456789+/" :
        String).data.length = 64 := by decide
      omega

/-- Base64 encodings are valid base64: complete groups of four over the data
alphabet, with `=` padding only in the final group. -/
theorem b64EncodeChars_validBase64 (l : List Nat) :
    isValidBase64Groups (b64EncodeChars l) = true := by
  induction l using b64EncodeChars.induct with
  | case1 => decide
  | case2 a =>
    simp [b64EncodeChars, isValidBase64Groups, isB64DataChar_b64Char]
  | case3 a b =>
    simp [b64EncodeChars, isValidBase64Groups, isB64DataChar_b64Char]
  | case4 a b cc rest ih =>
    cases htail : b64EncodeChars rest with
    | nil =>
      simp [b64EncodeChars, htail, isValidBase64Groups, isB64DataChar_b64Char]
    | cons x xs =>
      simp only [b64EncodeChars, htail]
      simp only [isValidBase64Groups, isB64DataChar_b64Char, Bool.true_and]
      rw [← htail]
      exact ih

/-- The expected signature body computed by the verifier is always valid
base64. -/
theorem expected_signature_b64_valid (s d t p : String) :
    isValidBase64 (expected_signature_b64 s d t p) = true :=
  b64EncodeChars_validBase64 _

/-- The character data of `"v1," ++ rest`. -/
theorem data_v1_append (rest : String) :
    ("v1," ++ rest).data = 'v' :: '1' :: ',' :: rest.data := by
  rw [String.data_append]
  rfl

/-- A header of the form `"v1," ++ rest` passes the version check and the
verification reduces to the constant-time comparison of `rest` against the
expected base64 signature. -/
theorem verify_v1_append (payload secret delivery_id timestamp rest : String) :
    verify_mlflow_signature payload ("v1," ++ rest) secret delivery_id timestamp =
      compare_digest rest
        (expected_signature_b64 secret delivery_id timestamp payload) := by
  unfold verify_mlflow_signature startsWithV1
  rw [data_v1_append]
  rfl

section RetryLemmas

variable (image : String) (auth : Option (String × String))
variable (behavior : Nat → PushBehavior)

/-- The retry driver makes at least the attempt it starts with. -/
theorem retry_go_attempts_ge :
    ∀ fuel k acc, k ≤ (tenacity_retry_go image auth behavior k fuel acc).attempts := by
  intro fuel
  induction fuel with
  | zero =>
    intro k acc
    cases h : push_attempt_result (behavior k) with
    | ok u => cases u; simp [tenacity_retry_go, h]
    | error e => simp [tenacity_retry_go, h]
  | succ f ih =>
    intro k acc
    cases h : push_attempt_result (behavior k) with
    | ok u => cases u; simp [tenacity_retry_go, h]
    | error e =>
      by_cases hr : is_retryable e = true
      · simp only [tenacity_retry_go, h, hr, if_pos]
        exact le_trans (Nat.le_succ k) (ih (k + 1) _)
      · simp [tenacity_retry_go, h, hr]

/-- The retry driver makes at most `fuel` further attempts beyond the one it
starts with. -/
theorem retry_go_attempts_le :
    ∀ fuel k acc, (tenacity_retry_go image auth behavior k fuel acc).attempts ≤ k + fuel := by
  intro fuel
  induction fuel with
  | zero =>
    intro k acc
    cases h : push_attempt_result (behavior k) with
    | ok u => cases u; simp [tenacity_retry_go, h]
    | error e => simp [tenacity_retry_go, h]
  | succ f ih =>
    intro k acc
    cases h : push_attempt_result (behavior k) with
    | ok u => cases u; simp [tenacity_retry_go, h]
    | error e =>
      by_cases hr : is_retryable e = true
      · simp only [tenacity_retry_go, h, hr, if_pos]
        have := ih (k + 1) (acc ++ push_attempt_calls image auth)
        omega
      · simp [tenacity_retry_go, h, hr]

/-- When the retry driver ends in an error, that error is exactly what the
final attempt raised (`reraise=True`: the last error propagates
unmodified). -/
theorem retry_go_last_error :
    ∀ fuel k acc e, (tenacity_retry_go image auth behavior k fuel acc).result = .error e →
      push_attempt_result
        (behavior (tenacity_retry_go image auth behavior k fuel acc).attempts) = .error e := by
  intro fuel
  induction fuel with
  | zero =>
    intro k acc e he
    cases h : push_attempt_result (behavior k) with
    | ok u => cases u; simp [tenacity_retry_go, h] at he
    | error e' =>
      simp [tenacity_retry_go, h] at he ⊢
      exact he
  | succ f ih =>
    intro k acc e he
    cases h : push_attempt_result (behavior k) with
    | ok u => cases u; simp [tenacity_retry_go, h] at he
    | error e' =>
      by_cases hr : is_retryable e' = true
      · simp only [tenacity_retry_go, h, hr, if_pos] at he ⊢
        exact ih (k + 1) _ e he
      · simp [tenacity_retry_go, h, hr] at he ⊢
        exact he

/-- Every attempt strictly before the final one failed with a retryable error
(an `APIError` or a `DockerPushError`): retries happen only on those. -/
theorem retry_go_intermediate_retryable :
    ∀ fuel k acc j, k ≤ j → j < (tenacity_retry_go image auth behavior k fuel acc).attempts →
      ∃ e, push_attempt_result (behavior j) = .error e ∧ is_retryable e = true := by
  intro fuel
  induction fuel with
  | zero =>
    intro k acc j hkj hlt
    exfalso
    cases h : push_attempt_result (behavior k) with
    | ok u => cases u; simp [tenacity_retry_go, h] at hlt; omega
    | error e => simp [tenacity_retry_go, h] at hlt; omega
  | succ f ih =>
    intro k acc j hkj hlt
    cases h : push_attempt_result (behavior k) with
    | ok u => cases u; simp [tenacity_retry_go, h] at hlt; omega
    | error e =>
      by_cases hr : is_retryable e = true
      · simp only [tenacity_retry_go, h, hr, if_pos] at hlt
        rcases Nat.eq_or_lt_of_le hkj with rfl | hkj'
        · exact ⟨e, h, hr⟩
        · exact ih (k + 1) _ j hkj' hlt
      · simp [tenacity_retry_go, h, hr] at hlt; omega

/-- With a pusher that fails with the same retryable error on every attempt,
the driver exhausts its fuel and propagates that error. -/
theorem retry_go_always_fail (e : DockerErr) (hr : is_retryable e = true)
    (hf : ∀ j, push_attempt_result (behavior j) = .error e) :
    ∀ fuel k acc,
      (tenacity_retry_go image auth behavior k fuel acc).result = .error e ∧
        (tenacity_retry_go image auth behavior k fuel acc).attempts = k + fuel := by
  intro fuel
  induction fuel with
  | zero => intro k acc; simp [tenacity_retry_go, hf k]
  | succ f ih =>
    intro k acc
    simp only [tenacity_retry_go, hf k, hr, if_pos]
    have := ih (k + 1) (acc ++ push_attempt_calls image auth)
    refine ⟨this.1, ?_⟩
    rw [this.2]
    omega

/-- Every docker-client call the retrying push issues is a `push` call with
the given image and `auth_config`; in particular no `login` call is ever
made. -/
theorem retry_go_calls :
    ∀ fuel k acc c, c ∈ (tenacity_retry_go image auth behavior k fuel acc).calls →
      c ∈ acc ∨ c = .pushCall image auth := by
  intro fuel
  induction fuel with
  | zero =>
    intro k acc c hc
    cases h : push_attempt_result (behavior k) with
    | ok u =>
      cases u; simp [tenacity_retry_go, h, push_attempt_calls] at hc
      tauto
    | error e =>
      simp [tenacity_retry_go, h, push_attempt_calls] at hc
      tauto
  | succ f ih =>
    intro k acc c hc
    cases h : push_attempt_result (behavior k) with
    | ok u =>
      cases u; simp [tenacity_retry_go, h, push_attempt_calls] at hc
      tauto
    | error e =>
      by_cases hr : is_retryable e = true
      · simp only [tenacity_retry_go, h, hr, if_pos] at hc
        rcases ih (k + 1) _ c hc with hmem | heq
        · simp [push_attempt_calls] at hmem
          tauto
        · exact Or.inr heq
      · simp [tenacity_retry_go, h, hr, push_attempt_calls] at hc
        tauto

end RetryLemmas

/-! ## Claim theorems -/

/-- Claim C5. For every timestamp string `t` and non-negative `maxAge`,
`verify_timestamp_freshness` returns `true` iff `t` parses as an integer Unix
epoch second count (`int(t)` succeeds) with `0 ≤ now - t ≤ maxAge`; it returns
`false` — totality of the embedded function is the "never throws" — for the
empty string, any non-parsing input, and any future timestamp. -/
theorem C5_timestamp_freshness_iff (now : Int) (t : String) (maxAge : Int)
    (hma : 0 ≤ maxAge) :
    (verify_timestamp_freshness now t maxAge = true ↔
      ∃ ts, pyParseInt t = some ts ∧ 0 ≤ now - ts ∧ now - ts ≤ maxAge)
    ∧ verify_timestamp_freshness now "" maxAge = false
    ∧ (pyParseInt t = none → verify_timestamp_freshness now t maxAge = false)
    ∧ (∀ ts, pyParseInt t = some ts → now < ts →
        verify_timestamp_freshness now t maxAge = false) := by
  refine ⟨?_, rfl, ?_, ?_⟩
  · unfold verify_timestamp_freshness
    cases h : pyParseInt t with
    | none => simp [h]
    | some ts => simp [h]
  · intro h
    simp [verify_timestamp_freshness, h]
  · intro ts h hfut
    simp only [verify_timestamp_freshness, h, decide_eq_false_iff_not]
    omega

/-- Witness for C5 at concrete inputs: `now = 1000`, timestamp `"900"`,
`maxAge = 300`. -/
theorem C5_timestamp_freshness_iff_witness :
    verify_timestamp_freshness 1000 "900" 300 = true ∧
      verify_timestamp_freshness 1000 "" 300 = false ∧
      verify_timestamp_freshness 1000 "abc" 300 = false ∧
      verify_timestamp_freshness 1000 "1001" 300 = false := by
  have h := C5_timestamp_freshness_iff 1000 "900" 300 (by decide)
  refine ⟨h.1.mpr ⟨900, by decide, by decide, by decide⟩, h.2.1, ?_, ?_⟩
  · exact (C5_timestamp_freshness_iff 1000 "abc" 300 (by decide)).2.2.1 (by decide)
  · exact (C5_timestamp_freshness_iff 1000 "1001" 300 (by decide)).2.2.2 1001 (by decide)
      (by decide)

/-- Claim C10. The build-log filename substitutes every `/` and `:` occurring in
the model name and the version with `_`; given that the strftime timestamp
part itself carries no `/` or `:` (its format `%Y%m%d_%H%M%S` produces only
digits and `_`), the resulting filename contains no `/` and no `:` at all. -/
theorem C10_log_filename_sanitized (name ver ts : String)
    (hts1 : '/' ∉ ts.data) (hts2 : ':' ∉ ts.data) :
    '/' ∉ (build_log_file_name name ver ts).data ∧
      ':' ∉ (build_log_file_name name ver ts).data := by
  unfold build_log_file_name
  simp only [String.data_append, List.mem_append]
  constructor
  · rintro (((((h | h) | h) | h) | h) | h)
    · exact sanitize_no_slash name h
    · exact absurd h (by decide)
    · exact sanitize_no_slash ver h
    · exact absurd h (by decide)
    · exact hts1 h
    · exact absurd h (by decide)
  · rintro (((((h | h) | h) | h) | h) | h)
    · exact sanitize_no_colon name h
    · exact absurd h (by decide)
    · exact sanitize_no_colon ver h
    · exact absurd h (by decide)
    · exact hts2 h
    · exact absurd h (by decide)

/-- Witness for C10 at concrete inputs containing both offending
characters. -/
theorem C10_log_filename_sanitized_witness :
    '/' ∉ (build_log_file_name "org/model" "v:1" "20261012_120000").data ∧
      ':' ∉ (build_log_file_name "org/model" "v:1" "20261012_120000").data :=
  C10_log_filename_sanitized "org/model" "v:1" "20261012_120000"
    (by decide) (by decide)

/-- Claim C4. Signing (HMAC-SHA256 over the exact concatenation
`deliveryId ++ "." ++ timestamp ++ "." ++ payload`, base64-encoded, with the
`"v1,"` version tag — `generate_signature`) and then verifying with the same
secret returns `true` for all inputs.  Verifying after altering any single one
of payload, secret, delivery id or timestamp returns `false`; since the check
compares the HMAC digests, each altered-field clause carries the premise that
the altered digest differs (SHA-256 collision-freeness made explicit — it is
discharged by computation at the witness's concrete inputs). -/
theorem C4_sign_then_verify (p s d t : String) :
    verify_mlflow_signature p (generate_signature p s d t) s d t = .ok true
    ∧ (∀ p', expected_signature_b64 s d t p' ≠ expected_signature_b64 s d t p →
        verify_mlflow_signature p' (generate_signature p s d t) s d t = .ok false)
    ∧ (∀ s', expected_signature_b64 s' d t p ≠ expected_signature_b64 s d t p →
        verify_mlflow_signature p (generate_signature p s d t) s' d t = .ok false)
    ∧ (∀ d', expected_signature_b64 s d' t p ≠ expected_signature_b64 s d t p →
        verify_mlflow_signature p (generate_signature p s d t) s d' t = .ok false)
    ∧ (∀ t', expected_signature_b64 s d t' p ≠ expected_signature_b64 s d t p →
        verify_mlflow_signature p (generate_signature p s d t) s d t' = .ok false) := by
  have hA : ∀ s' d' t' p', isAsciiStr (expected_signature_b64 s' d' t' p') = true :=
    fun s' d' t' p' => b64Encode_ascii _
  refine ⟨?_, ?_, ?_, ?_, ?_⟩
  · rw [generate_signature, verify_v1_append, compare_digest, if_pos]
    · simp
    · rw [hA]; simp
  · intro p' hne
    rw [generate_signature, verify_v1_append, compare_digest, if_pos]
    · simp only [Except.ok.injEq, decide_eq_false_iff_not]
      exact fun he => hne (he.symm)
    · rw [hA, hA]; simp
  · intro s' hne
    rw [generate_signature, verify_v1_append, compare_digest, if_pos]
    · simp only [Except.ok.injEq, decide_eq_false_iff_not]
      exact fun he => hne (he.symm)
    · rw [hA, hA]; simp
  · intro d' hne
    rw [generate_signature, verify_v1_append, compare_digest, if_pos]
    · simp only [Except.ok.injEq, decide_eq_false_iff_not]
      exact fun he => hne (he.symm)
    · rw [hA, hA]; simp
  · intro t' hne
    rw [generate_signature, verify_v1_append, compare_digest, if_pos]
    · simp only [Except.ok.injEq, decide_eq_false_iff_not]
      exact fun he => hne (he.symm)
    · rw [hA, hA]; simp

/-- Witness for C4 at concrete inputs: sign `("x", "k", "d1", "100")`, verify
unchanged (true) and with each single field altered (false); the
digest-difference premises are discharged by computing the HMACs. -/
theorem C4_sign_then_verify_witness :
    verify_mlflow_signature "x" (generate_signature "x" "k" "d1" "100") "k" "d1" "100" =
      .ok true
    ∧ verify_mlflow_signature "y" (generate_signature "x" "k" "d1" "100") "k" "d1" "100" =
      .ok false
    ∧ verify_mlflow_signature "x" (generate_signature "x" "k" "d1" "100") "k2" "d1" "100" =
      .ok false
    ∧ verify_mlflow_signature "x" (generate_signature "x" "k" "d1" "100") "k" "d2" "100" =
      .ok false
    ∧ verify_mlflow_signature "x" (generate_signature "x" "k" "d1" "100") "k" "d1" "101" =
      .ok false := by
  have h := C4_sign_then_verify "x" "k" "d1" "100"
  exact ⟨h.1, h.2.1 "y" (by decide), h.2.2.1 "k2" (by decide),
    h.2.2.2.1 "d2" (by decide), h.2.2.2.2 "101" (by decide)⟩

/-- Claim C6, counterexample. The claim "a header whose post-prefix content is
not valid base64 returns false without raising" is false as stated: for the
header `"v1,é"` the post-prefix content `"é"` is not valid base64, yet
`hmac.compare_digest` raises `TypeError` on the non-ASCII string instead of
returning `false`. -/
theorem C6_counterexample_nonascii :
    verify_mlflow_signature "x" "v1,é" "secret" "id" "ts" =
        .error .typeError
      ∧ verify_mlflow_signature "x" "v1,é" "secret" "id" "ts" ≠
        .ok false := by
  constructor
  · decide
  · decide

/-- Claim C6, amended. Signature verification fails closed on every header the
comparison can process: a header not starting with the literal `"v1,"` yields
`false` regardless of digest correctness; a header whose post-prefix content
is ASCII but not valid base64 (in the structural sense: well-formed groups of
four over the alphabet with `=` padding only at the end — this covers wrong
alphabet, wrong length and misplaced padding alike) yields `false` without
raising; a header whose post-prefix content is non-ASCII makes the
constant-time comparison raise `TypeError` (the one departure from the
original claim). -/
theorem C6_fail_closed (p sig s d t : String) :
    (startsWithV1 sig = false → verify_mlflow_signature p sig s d t = .ok false)
    ∧ (∀ rest : String, isAsciiStr rest = true → isValidBase64 rest = false →
        verify_mlflow_signature p ("v1," ++ rest) s d t = .ok false)
    ∧ (∀ rest : String, isAsciiStr rest = false →
        verify_mlflow_signature p ("v1," ++ rest) s d t = .error .typeError) := by
  refine ⟨?_, ?_, ?_⟩
  · intro h
    unfold verify_mlflow_signature
    rw [h]
    simp
  · intro rest hAscii hB64
    have hEV : isValidBase64 (expected_signature_b64 s d t p) = true :=
      expected_signature_b64_valid s d t p
    have hEA : isAsciiStr (expected_signature_b64 s d t p) = true :=
      b64Encode_ascii _
    rw [verify_v1_append, compare_digest, if_pos]
    · simp only [Except.ok.injEq, decide_eq_false_iff_not]
      intro he
      rw [he, hEV] at hB64
      exact Bool.noConfusion hB64
    · rw [hAscii, hEA]
      simp
  · intro rest hAscii
    rw [verify_v1_append, compare_digest, if_neg]
    rw [hAscii]
    simp

/-- Witness for C6 (amended) at concrete inputs: a wrong-version header, an
ASCII header with characters outside the alphabet, an alphabet-only header of
invalid length, and an alphabet-only header of misplaced padding all return
`false`. -/
theorem C6_fail_closed_witness :
    verify_mlflow_signature "x" "v2,abcd" "s" "d" "t" = .ok false
    ∧ verify_mlflow_signature "x" "v1,not-valid-base64!" "s" "d" "t" = .ok false
    ∧ verify_mlflow_signature "x" "v1,A" "s" "d" "t" = .ok false
    ∧ verify_mlflow_signature "x" "v1,====" "s" "d" "t" = .ok false := by
  have h := C6_fail_closed "x" "v2,abcd" "s" "d" "t"
  refine ⟨h.1 (by decide), ?_, ?_, ?_⟩
  · have h2 := h.2.1 "not-valid-base64!" (by decide) (by decide)
    have he : ("v1," ++ "not-valid-base64!" : String) = "v1,not-valid-base64!" := by
      decide
    rw [he] at h2
    exact h2
  · have h2 := h.2.1 "A" (by decide) (by decide)
    have he : ("v1," ++ "A" : String) = "v1,A" := by decide
    rw [he] at h2
    exact h2
  · have h2 := h.2.1 "====" (by decide) (by decide)
    have he : ("v1," ++ "====" : String) = "v1,====" := by decide
    rw [he] at h2
    exact h2

/-- Claim C7. The retrying push makes at most 3 attempts; every attempt before
the last failed with a retryable error (a docker `APIError` or a
`DockerPushError`) — it retries on nothing else; when it ends in an error,
that error is exactly the one the final attempt raised (`reraise=True`, no
wrapping); and a pusher that raises the transient `APIError` on every attempt
is invoked exactly 3 times with that error propagating. -/
theorem C7_push_retry_policy (image : String) (auth : Option (String × String))
    (behavior : Nat → PushBehavior) :
    (push_docker_image image auth behavior).attempts ≤ 3
    ∧ (∀ j, 1 ≤ j → j < (push_docker_image image auth behavior).attempts →
        ∃ e, push_attempt_result (behavior j) = .error e ∧ is_retryable e = true)
    ∧ (∀ e, (push_docker_image image auth behavior).result = .error e →
        push_attempt_result
          (behavior (push_docker_image image auth behavior).attempts) = .error e)
    ∧ (∀ m, (∀ j, behavior j = .raiseApi m) →
        (push_docker_image image auth behavior).attempts = 3
        ∧ (push_docker_image image auth behavior).result = .error (.apiError m)) := by
  refine ⟨retry_go_attempts_le image auth behavior 2 1 [],
    fun j h1 h2 => retry_go_intermediate_retryable image auth behavior 2 1 [] j h1 h2,
    fun e he => retry_go_last_error image auth behavior 2 1 [] e he,
    fun m hm => ?_⟩
  have hfail := retry_go_always_fail image auth behavior (.apiError m) rfl
    (fun j => by rw [hm j]; rfl) 2 1 []
  exact ⟨hfail.2, hfail.1⟩

/-- Witness for C7: the always-failing transient pusher makes exactly 3
attempts, the third attempt's error propagates unmodified, and the second
attempt (which was retried) failed retryably. -/
theorem C7_push_retry_policy_witness :
    (push_docker_image "r/m:1" (some ("u", "p")) (fun _ => .raiseApi "boom")).attempts = 3
    ∧ (push_docker_image "r/m:1" (some ("u", "p")) (fun _ => .raiseApi "boom")).result =
        .error (.apiError "boom")
    ∧ push_attempt_result ((fun _ => PushBehavior.raiseApi "boom") 3) =
        .error (.apiError "boom")
    ∧ ∃ e, push_attempt_result ((fun _ => PushBehavior.raiseApi "boom") 2) = .error e
        ∧ is_retryable e = true := by
  have h := C7_push_retry_policy "r/m:1" (some ("u", "p")) (fun _ => .raiseApi "boom")
  have h4 := h.2.2.2 "boom" (fun _ => rfl)
  refine ⟨h4.1, h4.2, ?_, ?_⟩
  · exact h.2.2.1 (.apiError "boom") h4.2
  · exact h.2.1 2 (by omega) (by rw [h4.1]; omega)

/-- Claim C8, divergence witness. With all three credentials configured and a
registry that rejects authentication (every push attempt raises an
authentication `APIError`), the code performs no registry `login` call at
all — credentials travel as `auth_config` on the push itself — and the
authentication failure is retried like any transport error: 3 attempts, the
`APIError` (no distinct auth error type exists in the module) propagating.
This contradicts the claim that a separate login happens first and that an
authentication failure raises a non-retried `AuthError`. -/
theorem C8_auth_failure_is_retried_without_login :
    push_docker_image "registry.io/m:1" (some ("user", "pw"))
        (fun _ => .raiseApi "401 Unauthorized") =
      ⟨.error (.apiError "401 Unauthorized"), 3,
        [.pushCall "registry.io/m:1" (some ("user", "pw")),
         .pushCall "registry.io/m:1" (some ("user", "pw")),
         .pushCall "registry.io/m:1" (some ("user", "pw"))]⟩ := by
  decide

/-- Claim C9. In the orchestrator's blocking form, a build failure
short-circuits: the push step is never invoked, and the raised
`DockerBuildError` (wrapping the packaging error) propagates. -/
theorem C9_build_failure_short_circuits (model_uri model_name version reg user pass : String)
    (buildOutcome : Except String Unit) (pushBehavior : Nat → PushBehavior)
    (msg : String) (h : buildOutcome = .error msg) :
    (build_and_push_docker model_uri model_name version reg user pass
        buildOutcome pushBehavior).2 = false
    ∧ (build_and_push_docker model_uri model_name version reg user pass
        buildOutcome pushBehavior).1 =
      .error (.dockerBuildError ("Failed to build image " ++
        (reg ++ "/" ++ model_name ++ ":" ++ version) ++ ": " ++ msg)) := by
  subst h
  exact ⟨rfl, rfl⟩

/-- Witness for C9 at a concrete failing build. -/
theorem C9_build_failure_short_circuits_witness :
    (build_and_push_docker "models:/m/1" "m" "1" "reg.io" "u" "p"
        (.error "no such model") (fun _ => .stream [])).2 = false
    ∧ (build_and_push_docker "models:/m/1" "m" "1" "reg.io" "u" "p"
        (.error "no such model") (fun _ => .stream [])).1 =
      .error (.dockerBuildError ("Failed to build image " ++
        ("reg.io" ++ "/" ++ "m" ++ ":" ++ "1") ++ ": " ++ "no such model")) :=
  C9_build_failure_short_circuits "models:/m/1" "m" "1" "reg.io" "u" "p"
    (.error "no such model") (fun _ => .stream []) "no such model" rfl

/-- A `"v1,"`-tagged signature header is never the empty string. -/
theorem v1_sig_ne_empty (rest : String) : ("v1," ++ rest) ≠ "" := by
  intro h
  have hd := congrArg String.data h
  rw [data_v1_append] at hd
  simp at hd

/-- On any request whose three headers are non-empty and whose timestamp
passes the freshness check, the handler crashes with
`AttributeError("mlflow_webhook_secret")` before signature verification. -/
theorem handle_webhook_attr_error (st : Settings) (now : Int) (p : String)
    (ev : WebhookEvent) (sig did ts : String)
    (h1 : sig ≠ "") (h2 : did ≠ "") (h3 : ts ≠ "")
    (h4 : verify_timestamp_freshness now ts st.max_timestamp_age = true) :
    handle_webhook st now p ev sig did ts =
      ⟨.unhandled (.attributeError "mlflow_webhook_secret"), [], false⟩ := by
  unfold handle_webhook
  rw [if_neg h1, if_neg h2, if_neg h3]
  have hmax : settingsGetattr st "max_timestamp_age" =
      Except.ok (PyValue.int st.max_timestamp_age) := rfl
  have hsec : settingsGetattr st "mlflow_webhook_secret" =
      Except.error (PyErr.attributeError "mlflow_webhook_secret") := rfl
  rw [hmax]
  simp only [PyValue.asInt, h4, hsec]
  simp

/-- No execution of the handler ever schedules a build or reaches signature
verification: every control path either rejects the request or dies at the
`settings.mlflow_webhook_secret` attribute read. -/
theorem handle_webhook_inert (st : Settings) (now : Int) (p : String)
    (ev : WebhookEvent) (sig did ts : String) :
    (handle_webhook st now p ev sig did ts).scheduled = []
    ∧ (handle_webhook st now p ev sig did ts).signatureChecked = false := by
  have hmax : settingsGetattr st "max_timestamp_age" =
      Except.ok (PyValue.int st.max_timestamp_age) := rfl
  by_cases h1 : sig = ""
  · unfold handle_webhook; rw [if_pos h1]; exact ⟨rfl, rfl⟩
  by_cases h2 : did = ""
  · unfold handle_webhook; rw [if_neg h1, if_pos h2]; exact ⟨rfl, rfl⟩
  by_cases h3 : ts = ""
  · unfold handle_webhook; rw [if_neg h1, if_neg h2, if_pos h3]; exact ⟨rfl, rfl⟩
  by_cases h4 : verify_timestamp_freshness now ts st.max_timestamp_age = true
  · rw [handle_webhook_attr_error st now p ev sig did ts h1 h2 h3 h4]
    exact ⟨rfl, rfl⟩
  · have h4f : verify_timestamp_freshness now ts st.max_timestamp_age = false := by
      revert h4; cases verify_timestamp_freshness now ts st.max_timestamp_age <;> simp
    unfold handle_webhook
    rw [if_neg h1, if_neg h2, if_neg h3, hmax]
    simp only [PyValue.asInt, h4f]
    simp

/-- The endpoint as a whole never schedules a build and never reaches
signature verification, on any input whatsoever. -/
theorem webhook_endpoint_inert (st : Settings) (now : Int) (p : String)
    (raw : RawEvent) (osig odid ots : Option String) :
    (webhook_endpoint st now p raw osig odid ots).scheduled = []
    ∧ (webhook_endpoint st now p raw osig odid ots).signatureChecked = false := by
  unfold webhook_endpoint
  rcases osig with _ | sg <;> rcases odid with _ | di <;> rcases ots with _ | ts <;>
    try exact ⟨rfl, rfl⟩
  cases h : validateEvent raw with
  | error u => cases u; simp [h]
  | ok ev => simp [h]; exact handle_webhook_inert st now p ev sg di ts

/-- Claim C3. On every request with all three headers present (non-empty) and a
fresh timestamp, the handler raises `AttributeError` at the
`settings.mlflow_webhook_secret` read (the frozen `Settings` dataclass has
`webhook_secret` and `docker_password`, not `mlflow_webhook_secret` or
`docker_registry_password`, so the later `settings.docker_registry_password`
read would equally raise); signature verification is therefore never reached
and no build is ever scheduled through this handler, on any input. -/
theorem C3_handler_attribute_error (st : Settings) (now : Int) (p : String)
    (ev : WebhookEvent) (sig did ts : String) (raw : RawEvent)
    (osig odid ots : Option String) :
    (sig ≠ "" → did ≠ "" → ts ≠ "" →
      verify_timestamp_freshness now ts st.max_timestamp_age = true →
      handle_webhook st now p ev sig did ts =
        ⟨.unhandled (.attributeError "mlflow_webhook_secret"), [], false⟩)
    ∧ settingsGetattr st "mlflow_webhook_secret" =
        .error (.attributeError "mlflow_webhook_secret")
    ∧ settingsGetattr st "docker_registry_password" =
        .error (.attributeError "docker_registry_password")
    ∧ (webhook_endpoint st now p raw osig odid ots).scheduled = []
    ∧ (webhook_endpoint st now p raw osig odid ots).signatureChecked = false := by
  refine ⟨fun h1 h2 h3 h4 => handle_webhook_attr_error st now p ev sig did ts h1 h2 h3 h4,
    rfl, rfl, ?_, ?_⟩
  · exact (webhook_endpoint_inert st now p raw osig odid ots).1
  · exact (webhook_endpoint_inert st now p raw osig odid ots).2

/-- Witness for C3 at a concrete fresh, fully-headed request. -/
theorem C3_handler_attribute_error_witness :
    handle_webhook ⟨"sek", "docker.io", "user", "pw", 300, 8000⟩ 1000 "payload"
        (.modelVersionCreated ⟨"m", "models:/m/1", "1"⟩) "v1,x" "d1" "1000" =
      ⟨.unhandled (.attributeError "mlflow_webhook_secret"), [], false⟩ :=
  (C3_handler_attribute_error ⟨"sek", "docker.io", "user", "pw", 300, 8000⟩ 1000 "payload"
    (.modelVersionCreated ⟨"m", "models:/m/1", "1"⟩) "v1,x" "d1" "1000"
    ⟨"model_version", "created", ⟨some "m", some "models:/m/1", some "1", none⟩⟩
    (some "v1,x") (some "d1") (some "1000")).1
    (by decide) (by decide) (by decide) (by decide)

/-- Claim C1, divergence witness. A fully valid `model_version`/`created`
request — validated body, all headers, a signature correctly generated with
the configured secret, a current timestamp — does not produce
202/`submitted` with one scheduled build: the handler dies with
`AttributeError("mlflow_webhook_secret")` (an HTTP 500) before verifying the
signature, and nothing is scheduled. -/
theorem C1_valid_request_crashes_before_scheduling :
    webhook_endpoint ⟨"topsecret", "docker.io", "user", "pw", 300, 8000⟩ 1000
        "\x7b\"entity\": \"model_version\", \"action\": \"created\", \"data\": \x7b\"name\": \"m\", \"source\": \"models:/m/1\", \"version\": \"1\"\x7d\x7d"
        ⟨"model_version", "created", ⟨some "m", some "models:/m/1", some "1", none⟩⟩
        (some (generate_signature
          "\x7b\"entity\": \"model_version\", \"action\": \"created\", \"data\": \x7b\"name\": \"m\", \"source\": \"models:/m/1\", \"version\": \"1\"\x7d\x7d"
          "topsecret" "d1" "1000"))
        (some "d1") (some "1000") =
      ⟨.unhandled (.attributeError "mlflow_webhook_secret"), [], false⟩ := by
  show handle_webhook ⟨"topsecret", "docker.io", "user", "pw", 300, 8000⟩ 1000
      "\x7b\"entity\": \"model_version\", \"action\": \"created\", \"data\": \x7b\"name\": \"m\", \"source\": \"models:/m/1\", \"version\": \"1\"\x7d\x7d"
      (.modelVersionCreated ⟨"m", "models:/m/1", "1"⟩)
      (generate_signature
        "\x7b\"entity\": \"model_version\", \"action\": \"created\", \"data\": \x7b\"name\": \"m\", \"source\": \"models:/m/1\", \"version\": \"1\"\x7d\x7d"
        "topsecret" "d1" "1000")
      "d1" "1000" = _
  exact handle_webhook_attr_error _ 1000 _ _ _ "d1" "1000"
    (v1_sig_ne_empty _) (by decide) (by decide) (by decide)

/-- Claim C2, divergence witness. An `unknown_entity`/`unknown_action` payload
with otherwise valid headers is not accepted with 202/`submitted`: the typed
`WebhookEvent` union admits exactly the two recognised entity/action pairs,
so FastAPI rejects the body with a 422 validation error before the handler
runs (no build is scheduled either way). -/
theorem C2_unknown_entity_is_rejected_not_accepted :
    webhook_endpoint ⟨"topsecret", "docker.io", "user", "pw", 300, 8000⟩ 1000
        "\x7b\"entity\": \"unknown_entity\", \"action\": \"unknown_action\", \"data\": \x7b\x7d\x7d"
        ⟨"unknown_entity", "unknown_action", ⟨none, none, none, none⟩⟩
        (some (generate_signature
          "\x7b\"entity\": \"unknown_entity\", \"action\": \"unknown_action\", \"data\": \x7b\x7d\x7d"
          "topsecret" "d1" "1000"))
        (some "d1") (some "1000") =
      ⟨.validationError, [], false⟩
    ∧ WebhookResponse.validationError ≠ .accepted "submitted" := by
  exact ⟨rfl, by decide⟩

end MlflowDock
